import Mathlib

/-
Verification of xstools/xsboard.py: board identification (XsBoard.get_xsboard),
board-information retrieval and validation (XulaMicro.get_board_info), the
diagnostic self-test polling loop (XulaBase.do_self_test), and the
flash-enable-flag bracketing of the Xula configuration-flash workflows
(Xula.read_cfg_flash / write_cfg_flash / erase_cfg_flash).

The external collaborators (USB transport, JTAG, microcontroller driver,
flash/SDRAM drivers) are abstracted as explicit parameters: a fetch outcome,
a constructor outcome, a connectivity-check outcome, a polled frame sequence,
or an operation outcome.  Python exceptions are modelled by the PyErr type;
phase notifications sent over the pub/sub channel are collected into lists of
strings in emission order.
-/

namespace Xstools

/-- Exceptions relevant to xsboard.py: the program's recoverable errors
(XsMinorError), its fatal errors (XsMajorError), and Python's ValueError,
which list.index raises when the sought element is absent and which is not
one of the program's two defined error kinds. -/
inductive PyErr where
  | minor (msg : String)
  | major (msg : String)
  | valueError
deriving DecidableEq

/-- Modelled from the spec: which exceptions the handler `except XsError` in
the probing loop of XsBoard.get_xsboard catches.  The exception hierarchy is
defined in xstools/xserror.py and xstools/xsusb.py, which are not among the
sources here; per the spec (section 7), a recoverable ("minor") hardware error
raised during probing is caught so that probing continues, a fatal ("major")
error is not caught and aborts the whole probe, and ValueError is not a
hardware error at all. -/
def caughtByXsError : PyErr → Bool
  | .minor _ => true
  | .major _ => false
  | .valueError => false

/-- The concrete board variants of xsboard.py. -/
inductive BoardKind where
  | XulaOldFmw
  | Xula50
  | Xula200
  | Xula2lx25
  | Xula2lx9
  | XulaNoJtag
deriving DecidableEq

/-- The `name` attribute of each variant: Xula.name = 'XuLA',
Xula50.name = Xula.name + '-50', Xula2.name = 'XuLA2',
Xula2lx25.name = Xula2.name + '-LX25', and so on; both XulaOldFmw and
XulaNoJtag are named 'XuLA UNKNOWN'. -/
def BoardKind.name : BoardKind → String
  | .XulaOldFmw => "XuLA UNKNOWN"
  | .Xula50 => "XuLA-50"
  | .Xula200 => "XuLA-200"
  | .Xula2lx25 => "XuLA2-LX25"
  | .Xula2lx9 => "XuLA2-LX9"
  | .XulaNoJtag => "XuLA UNKNOWN"

/-- The tuple board_classes of XsBoard.get_xsboard, in source order:
(XulaOldFmw, Xula50, Xula200, Xula2lx25, Xula2lx9, XulaNoJtag). -/
def board_classes : List BoardKind :=
  [.XulaOldFmw, .Xula50, .Xula200, .Xula2lx25, .Xula2lx9, .XulaNoJtag]

/-- Python str.lower for a single ASCII character (all board names are
ASCII). -/
def lowerChar (c : Char) : Char :=
  if 65 ≤ c.toNat ∧ c.toNat ≤ 90 then Char.ofNat (c.toNat + 32) else c

/-- Python str.lower for ASCII strings. -/
def strLower (s : String) : String :=
  String.mk (s.data.map lowerChar)

/-- First loop of XsBoard.get_xsboard: return the first class whose name
matches the supplied board name case-insensitively
(xsboard_name.lower() == c.name.lower()), none when no class matches. -/
def findNamed (xsboard_name : String) : List BoardKind → Option BoardKind
  | [] => none
  | c :: rest =>
    if strLower xsboard_name = strLower c.name then some c
    else findNamed xsboard_name rest

/-- Second loop of XsBoard.get_xsboard: for each class, construct an instance
(ctor, modelling c(xsusb_id)) and call its connectivity check (conn, modelling
xsboard.is_connected()); both run inside try/except XsError, so an exception
caught by that handler moves probing to the next class, while any other
exception propagates; the first class whose check reports true is returned. -/
def tryProbe (ctor : BoardKind → Except PyErr Unit)
    (conn : BoardKind → Except PyErr Bool) :
    List BoardKind → Except PyErr (Option BoardKind)
  | [] => .ok none
  | c :: rest =>
    match (ctor c).bind fun _ => conn c with
    | .ok true => .ok (some c)
    | .ok false => tryProbe ctor conn rest
    | .error e => if caughtByXsError e then tryProbe ctor conn rest else .error e

/-- XsBoard.get_xsboard with construction and connectivity checks abstracted:
returns ok none when xsusb_id is None; otherwise first tries the
name-matching loop (whose construction is NOT protected by try/except, so its
errors propagate), then falls through to the probing loop over the full
priority list. -/
def get_xsboard (ctor : BoardKind → Except PyErr Unit)
    (conn : BoardKind → Except PyErr Bool)
    (xsusb_id : Option Nat) (xsboard_name : String) :
    Except PyErr (Option BoardKind) :=
  match xsusb_id with
  | none => .ok none
  | some _ =>
    match findNamed xsboard_name board_classes with
    | some c =>
      match ctor c with
      | .ok _ => .ok (some c)
      | .error e => .error e
    | none => tryProbe ctor conn board_classes

/-- Hexadecimal digit character, lowercase, as produced by Python %x. -/
def hexChar (n : Nat) : Char :=
  if n < 10 then Char.ofNat (48 + n) else Char.ofNat (87 + n)

/-- Python '%02x' % b for a byte b (the info frame is an array of bytes, so
every formatted value is below 256 and prints as exactly two hex digits). -/
def format02x (b : Nat) : String :=
  String.mk [hexChar (b / 16), hexChar (b % 16)]

/-- The dictionary returned by XulaMicro.get_board_info, with keys 'ID',
'VERSION' and 'DESCRIPTION'. -/
structure BoardInfo where
  ID : String
  VERSION : String
  DESCRIPTION : String
deriving DecidableEq

/-- Validation and parsing part of XulaMicro.get_board_info, applied to a
fetched info frame: if sum(info) & 0xff is nonzero, raise
XsMinorError('XESS board information is corrupted.'); otherwise build
ID = '%02x%02x' % (info[1], info[2]), VERSION = '%d.%d' % (info[3], info[4]),
and DESCRIPTION = the bytes of info[5:] up to the first zero byte, where
desc.index(0) raises ValueError when no zero byte exists. -/
def parse_board_info (info : List Nat) : Except PyErr BoardInfo :=
  if info.sum &&& 0xff ≠ 0 then
    .error (.minor "XESS board information is corrupted.")
  else
    let board_id := format02x (info.getD 1 0) ++ format02x (info.getD 2 0)
    let version := toString (info.getD 3 0) ++ "." ++ toString (info.getD 4 0)
    let desc := info.drop 5
    match desc.findIdx? (· == 0) with
    | none => .error .valueError
    | some desc_len =>
      .ok ⟨board_id, version, String.mk ((desc.take desc_len).map Char.ofNat)⟩

/-- Result of XulaMicro.get_board_info together with a trace of the hardware
interactions it performed: how many resets it issued and how many times it
called xsusb.get_info. -/
structure GetInfoResult where
  result : Except PyErr BoardInfo
  resets : Nat
  fetches : Nat

/-- XulaMicro.get_board_info, with the two possible xsusb.get_info calls
abstracted as outcomes fetch1 and fetch2 (none means the call raised an
XsError): try the first fetch; on failure reset once and try a second fetch;
if that also fails raise XsMajorError('Unable to get XESS board
information.'); a fetched frame is then validated and parsed. -/
def get_board_info (fetch1 fetch2 : Option (List Nat)) : GetInfoResult :=
  match fetch1 with
  | some info => ⟨parse_board_info info, 0, 1⟩
  | none =>
    match fetch2 with
    | some info => ⟨parse_board_info info, 1, 2⟩
    | none => ⟨.error (.major "Unable to get XESS board information."), 1, 2⟩

/-- Progress stages of the diagnostic self test:
(TEST_START, TEST_WRITE, TEST_READ, TEST_DONE) = range(0,4). -/
def TEST_START : Nat := 0

/-- Progress stage 1 of the diagnostic self test. -/
def TEST_WRITE : Nat := 1

/-- Progress stage 2 of the diagnostic self test. -/
def TEST_READ : Nat := 2

/-- Progress stage 3 of the diagnostic self test. -/
def TEST_DONE : Nat := 3

/-- BASE_SIGNATURE of XulaBase.do_self_test. -/
def BASE_SIGNATURE : Nat := 0xA50000A5

/-- SELF_TEST_SIGNATURE = BASE_SIGNATURE | (1 << 8). -/
def SELF_TEST_SIGNATURE : Nat := BASE_SIGNATURE ||| (1 <<< 8)

/-- One frame returned by dut.read() in XulaBase.do_self_test:
[progress, failed, signature] with declared widths [2, 1, 32]. -/
structure TestFrame where
  progress : Nat
  failed : Bool
  signature : Nat
deriving DecidableEq

/-- Outcome of the self-test polling loop: normal return (test passed),
XsMinorError (diagnostic test failed), XsMajorError (wrong signature), or
the frame sequence running out with the loop still polling. -/
inductive SelfTestOutcome where
  | passed
  | minorFail (msg : String)
  | majorFail (msg : String)
  | hung
deriving DecidableEq

/-- Phase notification emitted when progress changes to TEST_READ. -/
def readPhase (f : TestFrame) : List String :=
  if f.progress = TEST_READ then ["Reading SDRAM"] else []

/-- The polling loop of XulaBase.do_self_test over a sequence of frames,
starting from a previously observed progress value (prev_progress =
TEST_START initially).  Each iteration reads one frame; a wrong signature
raises XsMajorError(self.name + msg) at once; when progress changed, a
'Reading SDRAM' phase is emitted on a change to TEST_READ, then failed = 1
emits 'Test Done' and raises XsMinorError(self.name + ' failed diagnostic
test.'), and progress = TEST_DONE emits 'Test Done' and returns success;
otherwise prev_progress is updated and the loop continues.  The second
component collects the emitted phase notifications in order. -/
def do_self_test_loop (nm : String) :
    List TestFrame → Nat → SelfTestOutcome × List String
  | [], _ => (.hung, [])
  | f :: rest, prev_progress =>
    if f.signature ≠ SELF_TEST_SIGNATURE then
      (.majorFail (nm ++ "FPGA is not configured with diagnostic bitstream."), [])
    else if f.progress ≠ prev_progress then
      if f.failed then
        (.minorFail (nm ++ " failed diagnostic test."),
          readPhase f ++ ["Test Done"])
      else if f.progress = TEST_DONE then
        (.passed, readPhase f ++ ["Test Done"])
      else
        let r := do_self_test_loop nm rest f.progress
        (r.1, readPhase f ++ r.2)
    else
      do_self_test_loop nm rest f.progress

/-- State of the microcontroller flash-enable flag.  Modelled from the spec:
the microcontroller driver (xstools/picmicro.py, not among the sources here)
exposes get_cfg_flash_flag returning the raw flag value, enable_cfg_flash
setting it to a nonzero value (modelled as 1), and set_cfg_flash_flag
writing a given raw value back. -/
structure MicroState where
  cfgFlashFlag : Nat
deriving DecidableEq

/-- Xula.read_cfg_flash: save the flag with get_cfg_flash_flag, force it on
with enable_cfg_flash, run the inherited XulaBase.read_cfg_flash (whose
outcome is the parameter op), then restore the saved value with
set_cfg_flash_flag.  There is no try/finally, so when op raises, the
exception propagates and the restoring call is skipped. -/
def xula_read_cfg_flash (s : MicroState) (op : Except PyErr (List Nat)) :
    Except PyErr (List Nat) × MicroState :=
  let cfg_flash_flag := s.cfgFlashFlag
  match op with
  | .ok data => (.ok data, ⟨cfg_flash_flag⟩)
  | .error e => (.error e, ⟨1⟩)

/-- Xula.write_cfg_flash: same flag bracketing as xula_read_cfg_flash around
the inherited XulaBase.write_cfg_flash, again without try/finally. -/
def xula_write_cfg_flash (s : MicroState) (op : Except PyErr Unit) :
    Except PyErr Unit × MicroState :=
  let cfg_flash_flag := s.cfgFlashFlag
  match op with
  | .ok _ => (.ok (), ⟨cfg_flash_flag⟩)
  | .error e => (.error e, ⟨1⟩)

/-- Xula.erase_cfg_flash: same flag bracketing as xula_read_cfg_flash around
the inherited XulaBase.erase_cfg_flash, again without try/finally. -/
def xula_erase_cfg_flash (s : MicroState) (op : Except PyErr Unit) :
    Except PyErr Unit × MicroState :=
  let cfg_flash_flag := s.cfgFlashFlag
  match op with
  | .ok _ => (.ok (), ⟨cfg_flash_flag⟩)
  | .error e => (.error e, ⟨1⟩)

/-- Success of the self-test polling loop stated the way the (amended) claim
reads: starting from previously observed progress prev, some polled frame is
reached whose progress differs from the previously observed one, equals
TEST_DONE, and whose failed bit is clear, every frame polled up to there
carrying the expected signature and every earlier frame acting as a
non-terminating poll (its progress unchanged, or failed clear and progress
not TEST_DONE). -/
inductive SelfTestPasses : Nat → List TestFrame → Prop where
  | done (prev : Nat) (f : TestFrame) (rest : List TestFrame)
      (hsig : f.signature = SELF_TEST_SIGNATURE) (hchange : f.progress ≠ prev)
      (hok : f.failed = false) (hdone : f.progress = TEST_DONE) :
      SelfTestPasses prev (f :: rest)
  | step (prev : Nat) (f : TestFrame) (rest : List TestFrame)
      (hsig : f.signature = SELF_TEST_SIGNATURE)
      (hskip : f.progress = prev ∨ (f.failed = false ∧ f.progress ≠ TEST_DONE))
      (htail : SelfTestPasses f.progress rest) :
      SelfTestPasses prev (f :: rest)

lemma land_ff_eq_mod (n : Nat) : n &&& 0xff = n % 256 := by
  have h255 : (0xff : Nat) = 2 ^ 8 - 1 := by norm_num
  have h256 : (256 : Nat) = 2 ^ 8 := by norm_num
  rw [h255, h256]
  apply Nat.eq_of_testBit_eq
  intro i
  rw [Nat.testBit_land, Nat.testBit_mod_two_pow, Nat.testBit_two_pow_sub_one]
  by_cases hi : i < 8
  · simp [hi]
  · simp [hi]

lemma do_self_test_loop_cons (nm : String) (f : TestFrame)
    (rest : List TestFrame) (prev_progress : Nat) :
    do_self_test_loop nm (f :: rest) prev_progress =
      if f.signature ≠ SELF_TEST_SIGNATURE then
        (.majorFail (nm ++ "FPGA is not configured with diagnostic bitstream."),
          [])
      else if f.progress ≠ prev_progress then
        if f.failed then
          (.minorFail (nm ++ " failed diagnostic test."),
            readPhase f ++ ["Test Done"])
        else if f.progress = TEST_DONE then
          (.passed, readPhase f ++ ["Test Done"])
        else
          ((do_self_test_loop nm rest f.progress).1,
            readPhase f ++ (do_self_test_loop nm rest f.progress).2)
      else
        do_self_test_loop nm rest f.progress := rfl

lemma tryProbe_cons (ctor : BoardKind → Except PyErr Unit)
    (conn : BoardKind → Except PyErr Bool) (c : BoardKind)
    (rest : List BoardKind) :
    tryProbe ctor conn (c :: rest) =
      match (ctor c).bind fun _ => conn c with
      | .ok true => .ok (some c)
      | .ok false => tryProbe ctor conn rest
      | .error e =>
        if caughtByXsError e then tryProbe ctor conn rest else .error e := rfl

lemma findNamed_eq_none (xsboard_name : String) (l : List BoardKind)
    (h : ∀ c ∈ l, strLower xsboard_name ≠ strLower c.name) :
    findNamed xsboard_name l = none := by
  induction l with
  | nil => rfl
  | cons c rest ih =>
    show (if strLower xsboard_name = strLower c.name then some c
          else findNamed xsboard_name rest) = none
    rw [if_neg (h c (List.mem_cons_self c rest))]
    exact ih fun d hd => h d (List.mem_cons_of_mem c hd)

/-- C3: on every poll of the self-test frame, if the signature field differs
from the expected 32-bit constant, the polling loop of do_self_test raises
XsMajorError on that very poll, whatever the frame's progress value, the
remaining frames and the current prev_progress tracking state are; the check
is the first thing done with every polled frame. -/
theorem self_test_bad_signature_major (nm : String) (f : TestFrame)
    (rest : List TestFrame) (prev_progress : Nat)
    (h : f.signature ≠ SELF_TEST_SIGNATURE) :
    do_self_test_loop nm (f :: rest) prev_progress =
      (.majorFail (nm ++ "FPGA is not configured with diagnostic bitstream."),
        []) := by
  rw [do_self_test_loop_cons, if_pos h]

/-- Witness for self_test_bad_signature_major at a concrete frame whose
signature is 0 while its progress is TEST_DONE. -/
theorem self_test_bad_signature_major_witness :
    (⟨TEST_DONE, false, 0⟩ : TestFrame).signature ≠ SELF_TEST_SIGNATURE ∧
    do_self_test_loop "XuLA-50" [⟨TEST_DONE, false, 0⟩] TEST_START =
      (.majorFail
        ("XuLA-50" ++ "FPGA is not configured with diagnostic bitstream."),
        []) :=
  ⟨by decide,
   self_test_bad_signature_major "XuLA-50" ⟨TEST_DONE, false, 0⟩ [] TEST_START
     (by decide)⟩

/-- C2 counterexample: a frame sequence containing a poll with failed = true
(at progress TEST_START, equal to the previously observed progress) on which
do_self_test nevertheless returns success, because the failed bit is only
inspected on polls whose progress differs from the previous one. -/
theorem self_test_failed_poll_success_cex :
    (do_self_test_loop "XuLA-50"
        [⟨TEST_START, true, SELF_TEST_SIGNATURE⟩,
         ⟨TEST_DONE, false, SELF_TEST_SIGNATURE⟩] TEST_START).1 =
      .passed
    ∧ (⟨TEST_START, true, SELF_TEST_SIGNATURE⟩ : TestFrame).failed = true := by
  exact ⟨by decide, rfl⟩

/-- C5: when the first xsusb.get_info call fails, get_board_info issues
exactly one reset and exactly one further fetch, whatever the retry returns;
when the retry fails too, the result is
XsMajorError('Unable to get XESS board information.'); and when the first
fetch succeeds, no reset and no retry happen at all. -/
theorem board_info_single_retry_then_major (fetch2 : Option (List Nat)) :
    (get_board_info none fetch2).resets = 1
    ∧ (get_board_info none fetch2).fetches = 2
    ∧ (get_board_info none none).result =
        .error (.major "Unable to get XESS board information.")
    ∧ ∀ info : List Nat, (get_board_info (some info) fetch2).resets = 0
        ∧ (get_board_info (some info) fetch2).fetches = 1 := by
  refine ⟨?_, ?_, rfl, fun info => ⟨rfl, rfl⟩⟩
  · cases fetch2 <;> rfl
  · cases fetch2 <;> rfl

/-- C6 (code evaluation): the flag bracketing of Xula.read_cfg_flash,
write_cfg_flash and erase_cfg_flash restores the saved flash-enable flag on
the success path for both prior values (0 and 1), but when the wrapped flash
operation raises, the exception propagates past the skipped restore and the
flag is left forced to enabled (1) although it was 0 beforehand. -/
theorem read_cfg_flash_flag_not_restored_on_failure :
    ((xula_read_cfg_flash ⟨0⟩ (.ok [18])).2 = ⟨0⟩)
    ∧ ((xula_read_cfg_flash ⟨1⟩ (.ok [18])).2 = ⟨1⟩)
    ∧ ((xula_read_cfg_flash ⟨0⟩ (.error (.minor "flash read failed"))).2 = ⟨1⟩)
    ∧ ((xula_write_cfg_flash ⟨0⟩ (.error (.minor "flash write failed"))).2 =
        ⟨1⟩)
    ∧ ((xula_erase_cfg_flash ⟨0⟩ (.error (.minor "flash erase failed"))).2 =
        ⟨1⟩) :=
  ⟨rfl, rfl, rfl, rfl, rfl⟩

/-- C7: on the info frame [116, 1, 2, 1, 5, 65, 66, 0] (byte sum 256, so the
checksum passes), get_board_info returns ID '0102', VERSION '1.5' and
DESCRIPTION 'AB', with no reset and a single fetch. -/
theorem board_info_parse_example :
    get_board_info (some [116, 1, 2, 1, 5, 65, 66, 0]) none =
      ⟨.ok ⟨"0102", "1.5", "AB"⟩, 0, 1⟩ := rfl

/-- C8 (code evaluation): on the info frame [116, 1, 2, 1, 5, 65, 66]
(byte sum 256, so the checksum passes, but no zero byte at or after offset
5), get_board_info neither succeeds nor raises one of the two defined error
kinds: desc.index(0) raises an unguarded Python ValueError. -/
theorem board_info_unterminated_desc_value_error :
    get_board_info (some [116, 1, 2, 1, 5, 65, 66]) none =
      ⟨.error .valueError, 0, 1⟩ := rfl

/-- C1: in the identification probing loop of get_xsboard (no variant name
matched, link identifier present), a descriptor whose construction or
connectivity check raises a recoverable (minor) hardware error is treated as
not connected and probing continues with the remaining descriptors, while a
fatal (major) error raised there aborts the whole probe and propagates; this
holds at every position of the priority list since the loop recurses through
its suffixes. -/
theorem probe_minor_continues_major_aborts
    (ctor : BoardKind → Except PyErr Unit)
    (conn : BoardKind → Except PyErr Bool)
    (c : BoardKind) (rest : List BoardKind) (m : String) :
    (((ctor c).bind fun _ => conn c) = .error (.minor m) →
      tryProbe ctor conn (c :: rest) = tryProbe ctor conn rest)
    ∧ (((ctor c).bind fun _ => conn c) = .error (.major m) →
      tryProbe ctor conn (c :: rest) = .error (.major m)) := by
  constructor
  · intro h
    rw [tryProbe_cons, h]
    rfl
  · intro h
    rw [tryProbe_cons, h]
    rfl

/-- Witness for probe_minor_continues_major_aborts: a connectivity check
raising a minor error lets probing continue to the rest of the list, and one
raising a major error makes the probe return that very error. -/
theorem probe_minor_continues_major_aborts_witness :
    (tryProbe (fun _ => .ok ()) (fun _ => .error (.minor "no response"))
        [.XulaOldFmw, .Xula50] =
      tryProbe (fun _ => .ok ()) (fun _ => .error (.minor "no response"))
        [.Xula50])
    ∧ (tryProbe (fun _ => .ok ()) (fun _ => .error (.major "link dead"))
        [.XulaOldFmw, .Xula50] = .error (.major "link dead")) :=
  ⟨(probe_minor_continues_major_aborts (fun _ => .ok ())
      (fun _ => .error (.minor "no response")) .XulaOldFmw [.Xula50]
      "no response").1 rfl,
   (probe_minor_continues_major_aborts (fun _ => .ok ())
      (fun _ => .error (.major "link dead")) .XulaOldFmw [.Xula50]
      "link dead").2 rfl⟩

/-- C4: for every info frame whose byte sum is nonzero modulo 256,
get_board_info raises XsMinorError('XESS board information is corrupted.')
and never returns a parsed BoardInfo, whether the frame came from the first
fetch or from the retry after a reset; being a minor error, it is distinct
from the fatal transport error of the double-fetch-failure path. -/
theorem board_info_bad_checksum_minor (info : List Nat)
    (fetch2 : Option (List Nat)) (h : info.sum % 256 ≠ 0) :
    (get_board_info (some info) fetch2).result =
      .error (.minor "XESS board information is corrupted.")
    ∧ (get_board_info none (some info)).result =
      .error (.minor "XESS board information is corrupted.")
    ∧ ∀ m : String, (PyErr.minor "XESS board information is corrupted.") ≠
        .major m := by
  have hc : info.sum &&& 0xff ≠ 0 := by rw [land_ff_eq_mod]; exact h
  refine ⟨?_, ?_, fun m => by simp⟩
  · show parse_board_info info =
      .error (.minor "XESS board information is corrupted.")
    rw [parse_board_info, if_pos hc]
  · show parse_board_info info =
      .error (.minor "XESS board information is corrupted.")
    rw [parse_board_info, if_pos hc]

/-- Witness for board_info_bad_checksum_minor at the one-byte frame [1]. -/
theorem board_info_bad_checksum_minor_witness :
    ([1] : List Nat).sum % 256 ≠ 0
    ∧ (get_board_info (some [1]) none).result =
        .error (.minor "XESS board information is corrupted.") :=
  ⟨by decide, (board_info_bad_checksum_minor [1] none (by decide)).1⟩

/-- C9 counterexample: for the supplied variant name 'XuLA UNKNOWN' there is
no single descriptor in the priority list whose display name matches
case-insensitively, because XulaOldFmw and XulaNoJtag are two distinct
descriptors with that same display name. -/
theorem named_variant_not_unique_cex :
    ¬ ∃! c : BoardKind, c ∈ board_classes ∧
        strLower "XuLA UNKNOWN" = strLower c.name := by
  rintro ⟨c, ⟨hmem, hname⟩, huniq⟩
  have h1 : BoardKind.XulaOldFmw = c :=
    huniq .XulaOldFmw ⟨by decide, by decide⟩
  have h2 : BoardKind.XulaNoJtag = c :=
    huniq .XulaNoJtag ⟨by decide, by decide⟩
  exact absurd (h1.trans h2.symm) (by decide)

/-- C9 (amended): when a variant name is supplied and c is the first
descriptor in the priority list whose display name matches it
case-insensitively, get_xsboard constructs c and returns it; any error raised
by that construction (of either kind) propagates to the caller and is never
caught or converted into a not-found result. -/
theorem named_variant_first_match_ctor_propagates
    (ctor : BoardKind → Except PyErr Unit)
    (conn : BoardKind → Except PyErr Bool)
    (xsusb_id : Nat) (xsboard_name : String) (c : BoardKind)
    (h : findNamed xsboard_name board_classes = some c) :
    (∀ e, ctor c = .error e →
        get_xsboard ctor conn (some xsusb_id) xsboard_name = .error e)
    ∧ (ctor c = .ok () →
        get_xsboard ctor conn (some xsusb_id) xsboard_name = .ok (some c)) := by
  constructor
  · intro e he
    simp only [get_xsboard, h, he]
  · intro he
    simp only [get_xsboard, h, he]

/-- Witness for named_variant_first_match_ctor_propagates: the lowercase name
'xula-200' selects the Xula200 descriptor, and a major error raised while
constructing it propagates out of get_xsboard. -/
theorem named_variant_first_match_witness :
    findNamed "xula-200" board_classes = some .Xula200
    ∧ get_xsboard (fun _ => .error (.major "USB open failed"))
        (fun _ => .ok false) (some 0) "xula-200" =
        .error (.major "USB open failed") :=
  ⟨by decide,
   (named_variant_first_match_ctor_propagates
      (fun _ => .error (.major "USB open failed")) (fun _ => .ok false) 0
      "xula-200" .Xula200 (by decide)).1 (.major "USB open failed") rfl⟩

/-- C10: when the supplied variant name matches no descriptor name
case-insensitively, get_xsboard reports no error and does not return
not-found immediately: it falls through to the connectivity-probing loop over
the full priority list, whose result (possibly a variant other than the named
one, or none) is returned. -/
theorem unknown_name_falls_through_to_probe
    (ctor : BoardKind → Except PyErr Unit)
    (conn : BoardKind → Except PyErr Bool)
    (xsusb_id : Nat) (xsboard_name : String)
    (h : ∀ c ∈ board_classes, strLower xsboard_name ≠ strLower c.name) :
    get_xsboard ctor conn (some xsusb_id) xsboard_name =
      tryProbe ctor conn board_classes := by
  have hn : findNamed xsboard_name board_classes = none :=
    findNamed_eq_none xsboard_name board_classes h
  simp only [get_xsboard, hn]

/-- Witness for unknown_name_falls_through_to_probe: the name 'XuLA-3000'
matches no descriptor, and with a probe in which only Xula50 reports
connected, get_xsboard returns the Xula50 instance rather than a not-found
result for the requested name. -/
theorem unknown_name_falls_through_to_probe_witness :
    (∀ c ∈ board_classes, strLower "XuLA-3000" ≠ strLower c.name)
    ∧ get_xsboard (fun _ => .ok ()) (fun c => .ok (c == .Xula50)) (some 0)
        "XuLA-3000" =
      tryProbe (fun _ => .ok ()) (fun c => .ok (c == .Xula50)) board_classes
    ∧ tryProbe (fun _ => .ok ()) (fun c => .ok (c == .Xula50)) board_classes =
      .ok (some .Xula50) :=
  ⟨by decide,
   unknown_name_falls_through_to_probe (fun _ => .ok ())
     (fun c => .ok (c == .Xula50)) 0 "XuLA-3000" (by decide),
   rfl⟩

lemma selfTestPasses_nil (prev : Nat) : ¬ SelfTestPasses prev [] := by
  intro h
  cases h

/-- C2 (amended): the self-test polling loop returns success exactly when a
poll is reached whose progress differs from the previously observed progress,
equals TEST_DONE and has failed = false, all earlier polls carrying the
expected signature and acting as non-terminating polls; and any poll whose
progress differs from the previously observed progress and whose failed bit
is set ends the test at once with the recoverable XsMinorError(' failed
diagnostic test.') after emitting the 'Test Done' phase notification — never
with success.  A poll with failed = true whose progress equals the previous
one is ignored by the loop. -/
theorem self_test_passed_iff_and_failed_change_minor
    (nm : String) (frames : List TestFrame) (prev : Nat) :
    ((do_self_test_loop nm frames prev).1 = .passed ↔ SelfTestPasses prev frames)
    ∧ ∀ f rest, f.signature = SELF_TEST_SIGNATURE → f.progress ≠ prev →
        f.failed = true →
        do_self_test_loop nm (f :: rest) prev =
          (.minorFail (nm ++ " failed diagnostic test."),
            readPhase f ++ ["Test Done"]) := by
  constructor
  · induction frames generalizing prev with
    | nil =>
      constructor
      · intro h
        exact absurd h (by simp [do_self_test_loop])
      · intro h
        exact absurd h (selfTestPasses_nil prev)
    | cons f rest ih =>
      by_cases hsig : f.signature = SELF_TEST_SIGNATURE
      · by_cases hp : f.progress = prev
        · have hred : do_self_test_loop nm (f :: rest) prev =
              do_self_test_loop nm rest f.progress := by
            rw [do_self_test_loop_cons, if_neg (by simp [hsig]),
              if_neg (by simp [hp])]
          rw [hred]
          constructor
          · intro h
            exact .step prev f rest hsig (Or.inl hp) ((ih f.progress).mp h)
          · intro h
            cases h with
            | done _ _ _ hsig2 hchange hok hdone => exact absurd hp hchange
            | step _ _ _ hsig2 hskip htail => exact (ih f.progress).mpr htail
        · by_cases hf : f.failed = true
          · have hred : do_self_test_loop nm (f :: rest) prev =
                (.minorFail (nm ++ " failed diagnostic test."),
                  readPhase f ++ ["Test Done"]) := by
              rw [do_self_test_loop_cons, if_neg (by simp [hsig]),
                if_pos hp, if_pos hf]
            rw [hred]
            constructor
            · intro h
              exact absurd h (by simp)
            · intro h
              cases h with
              | done _ _ _ hsig2 hchange hok hdone =>
                rw [hf] at hok
                cases hok
              | step _ _ _ hsig2 hskip htail =>
                rcases hskip with hskip | ⟨hok, hnd⟩
                · exact absurd hskip hp
                · rw [hf] at hok
                  cases hok
          · have hok : f.failed = false := by
              cases hfb : f.failed
              · rfl
              · exact absurd hfb hf
            by_cases hd : f.progress = TEST_DONE
            · have hred : do_self_test_loop nm (f :: rest) prev =
                  (.passed, readPhase f ++ ["Test Done"]) := by
                rw [do_self_test_loop_cons, if_neg (by simp [hsig]),
                  if_pos hp, if_neg (by simp [hok]), if_pos hd]
              rw [hred]
              constructor
              · intro _
                exact .done prev f rest hsig hp hok hd
              · intro _
                rfl
            · have hred : do_self_test_loop nm (f :: rest) prev =
                  ((do_self_test_loop nm rest f.progress).1,
                    readPhase f ++ (do_self_test_loop nm rest f.progress).2) := by
                rw [do_self_test_loop_cons, if_neg (by simp [hsig]),
                  if_pos hp, if_neg (by simp [hok]), if_neg hd]
              rw [hred]
              constructor
              · intro h
                exact .step prev f rest hsig (Or.inr ⟨hok, hd⟩)
                  ((ih f.progress).mp h)
              · intro h
                cases h with
                | done _ _ _ hsig2 hchange hok2 hdone => exact absurd hdone hd
                | step _ _ _ hsig2 hskip htail =>
                  exact (ih f.progress).mpr htail
      · have hred : do_self_test_loop nm (f :: rest) prev =
            (.majorFail
              (nm ++ "FPGA is not configured with diagnostic bitstream."),
              []) := by
          rw [do_self_test_loop_cons, if_pos hsig]
        rw [hred]
        constructor
        · intro h
          exact absurd h (by simp)
        · intro h
          cases h with
          | done _ _ _ hsig2 hchange hok hdone => exact absurd hsig2 hsig
          | step _ _ _ hsig2 hskip htail => exact absurd hsig2 hsig
  · intro f rest h1 h2 h3
    rw [do_self_test_loop_cons, if_neg (by simp [h1]), if_pos h2, if_pos h3]

/-- Witness for self_test_passed_iff_and_failed_change_minor: a poll with the
expected signature, progress TEST_WRITE (different from the previous
TEST_START) and failed = true ends the test with the recoverable failure
after emitting 'Test Done'. -/
theorem self_test_passed_iff_and_failed_change_minor_witness :
    do_self_test_loop "XuLA-50" [⟨TEST_WRITE, true, SELF_TEST_SIGNATURE⟩]
        TEST_START =
      (.minorFail ("XuLA-50" ++ " failed diagnostic test."),
        readPhase ⟨TEST_WRITE, true, SELF_TEST_SIGNATURE⟩ ++ ["Test Done"]) :=
  (self_test_passed_iff_and_failed_change_minor "XuLA-50" [] TEST_START).2
    ⟨TEST_WRITE, true, SELF_TEST_SIGNATURE⟩ [] rfl (by decide) rfl

end Xstools
